import Mathlib

/-!
Shallow embedding of the request-orchestration core of the Fluentflow
repository: the caching text-generation proxy (`src/app/api/gemini/route.ts`)
and the tiered-fallback + polling avatar-video proxy
(`src/app/api/did/talk/route.ts`).

Time is modelled as `Nat` milliseconds; the upstream HTTP services are
modelled as explicit oracles (functions from request to response) so that
the number and order of outbound calls is observable in the result.
-/

namespace Fluentflow

/-! ## JS string primitives

The JS string methods used by the routes (`trim`, `toLowerCase`,
`startsWith`), given structurally recursive definitions over the
character list so that concrete runs reduce in the kernel. -/

/-- JS `s.trim()`: drop leading and trailing whitespace. -/
def jsTrim (s : String) : String :=
  ⟨((s.data.dropWhile Char.isWhitespace).reverse.dropWhile Char.isWhitespace).reverse⟩

/-- JS `s.toLowerCase()` (ASCII case fold, as used on the cache key). -/
def jsToLower (s : String) : String :=
  ⟨s.data.map Char.toLower⟩

/-- JS `s.startsWith(p)`. -/
def jsStartsWith (s p : String) : Bool :=
  p.data.isPrefixOf s.data

/-! ## TextGenerationProxy (`src/app/api/gemini/route.ts`) -/

/-- A cache entry of the in-memory `responseCache`:
`{ response: string; timestamp: number }`. -/
structure CacheEntry where
  response : String
  timestamp : Nat
deriving DecidableEq

/-- The in-memory cache `responseCache : Map<string, CacheEntry>`,
modelled as a lookup function. -/
def Cache : Type := String → Option CacheEntry

/-- `responseCache.set key entry` (JS `Map.set` overwrites). -/
def cacheSet (c : Cache) (key : String) (entry : CacheEntry) : Cache :=
  fun k => if k = key then some entry else c k

/-- `const CACHE_DURATION = 5 * 60 * 1000` (5 minutes in ms). -/
def CACHE_DURATION : Nat := 5 * 60 * 1000

/-- One `parts` element of the upstream Gemini response shape:
`{ text?: string }`. -/
structure GPart where
  text : Option String
deriving DecidableEq

/-- `content` of a candidate: `{ parts?: GPart[] }`. -/
structure GContent where
  parts : Option (List GPart)
deriving DecidableEq

/-- One element of `candidates`: `{ content?: GContent }`. -/
structure GCandidate where
  content : Option GContent
deriving DecidableEq

/-- The parsed upstream JSON: `{ candidates?: GCandidate[] }`. -/
structure GeminiData where
  candidates : Option (List GCandidate)
deriving DecidableEq

/-- `data?.candidates?.[0]?.content?.parts?.[0]?.text ?? ""` — optional
chaining through every level, with `""` whenever any level is missing. -/
def extractCandidateText (d : GeminiData) : String :=
  match d.candidates with
  | none => ""
  | some cs =>
    match cs with
    | [] => ""
    | c :: _ =>
      match c.content with
      | none => ""
      | some content =>
        match content.parts with
        | none => ""
        | some ps =>
          match ps with
          | [] => ""
          | p :: _ => p.text.getD ""

/-- The mocked `fetch` to the Gemini endpoint: `ok`/`status` of the HTTP
response, the error body text (read when `!ok`), and the parsed JSON
(read when `ok`). -/
structure GeminiUpstream where
  ok : Bool
  status : Nat
  errText : String
  data : GeminiData

/-- The distinguishable JSON bodies `POST /api/gemini` can answer with. -/
inductive GeminiOutcome where
  /-- `{ error: "Missing GOOGLE_GENERATIVE_API_KEY" }`, HTTP 500. -/
  | missingKey : GeminiOutcome
  /-- The missing-text validation error body, HTTP 400. -/
  | missingText : GeminiOutcome
  /-- `{ error: "Gemini API error", detail, status }`, HTTP 502. -/
  | upstreamError (detail : String) (upStatus : Nat) : GeminiOutcome
  /-- `{ reply }`, HTTP 200. -/
  | reply (s : String) : GeminiOutcome
deriving DecidableEq

/-- HTTP status code attached to each outcome by the handler. -/
def geminiStatusCode : GeminiOutcome → Nat
  | .missingKey => 500
  | .missingText => 400
  | .upstreamError _ _ => 502
  | .reply _ => 200

/-- Observable result of one invocation: the response, the cache left
behind, and how many upstream fetches were performed. -/
structure GeminiResult where
  outcome : GeminiOutcome
  cache : Cache
  upstreamCalls : Nat

/-- The `POST` handler of `src/app/api/gemini/route.ts`.
`apiKey` is `process.env.GOOGLE_GENERATIVE_API_KEY` (JS falsy when absent
or empty), `bodyText` is `body?.text`, `now` is `Date.now()`, `upstream`
the mocked Gemini fetch. -/
def geminiPOST (apiKey : Option String) (bodyText : Option String)
    (cache : Cache) (now : Nat) (upstream : GeminiUpstream) : GeminiResult :=
  match apiKey with
  | none => ⟨.missingKey, cache, 0⟩
  | some k =>
    if k = "" then ⟨.missingKey, cache, 0⟩
    else
      match bodyText with
      | none => ⟨.missingText, cache, 0⟩
      | some t =>
        let userText := jsTrim t
        if userText = "" then ⟨.missingText, cache, 0⟩
        else
          let cacheKey := jsToLower userText
          let hit : Option String :=
            match cache cacheKey with
            | some cached =>
              if now - cached.timestamp < CACHE_DURATION then some cached.response else none
            | none => none
          match hit with
          | some r => ⟨.reply r, cache, 0⟩
          | none =>
            if upstream.ok then
              let candidateText := extractCandidateText upstream.data
              ⟨.reply candidateText,
               cacheSet cache cacheKey ⟨candidateText, now⟩, 1⟩
            else
              ⟨.upstreamError upstream.errText upstream.status, cache, 1⟩

/-! ## AvatarVideoProxy (`src/app/api/did/talk/route.ts`) -/

/-- `const DEFAULT_SOURCE_URL = ...`. -/
def DEFAULT_SOURCE_URL : String :=
  "https://create-images-results.d-id.com/DefaultImages/actor.jpg"

/-- `const DEFAULT_VOICE_ID = "en-US-JennyNeural"`. -/
def DEFAULT_VOICE_ID : String := "en-US-JennyNeural"

/-- JS truthiness of a `string | null | undefined` environment value. -/
def jsTruthy : Option String → Bool
  | some s => s != ""
  | none => false

/-- JS `a || b || null` on `string | undefined` values. -/
def jsOrNull (a b : Option String) : Option String :=
  if jsTruthy a then a else if jsTruthy b then b else none

/-- JS `o?.trim() || d`: the trimmed string when non-empty, else `d`. -/
def jsOrDefault (o : Option String) (d : String) : String :=
  match o with
  | some s => if jsTrim s = "" then d else jsTrim s
  | none => d

/-- The headers record produced by `buildAuthHeaders` (only the three keys
the code ever sets). -/
structure AuthHeaders where
  contentType : String
  authorization : Option String
  xApiKey : Option String
deriving DecidableEq

/-- `buildAuthHeaders`: Content-Type always; Basic auth wins when
`opts.basicAuth && opts.basicAuth.trim()` is truthy (prepending the
`"Basic "` scheme when absent); otherwise the `x-api-key` header when
`opts.studioApiKey && opts.studioApiKey.trim()` is truthy; otherwise
neither auth header. -/
def buildAuthHeaders (studioApiKey basicAuth : Option String) : AuthHeaders :=
  let headers : AuthHeaders := ⟨"application/json", none, none⟩
  match basicAuth with
  | some b =>
    if b != "" && jsTrim b != "" then
      let v := jsTrim b
      { headers with
        authorization := some (if jsStartsWith v "Basic " then v else "Basic " ++ v) }
    else
      match studioApiKey with
      | some k =>
        if k != "" && jsTrim k != "" then { headers with xApiKey := some (jsTrim k) }
        else headers
      | none => headers
  | none =>
    match studioApiKey with
    | some k =>
      if k != "" && jsTrim k != "" then { headers with xApiKey := some (jsTrim k) }
      else headers
    | none => headers

/-- `script.provider` block: `{ type: "microsoft", voice_id }`. -/
structure Provider where
  type : String
  voice_id : String
deriving DecidableEq

/-- `script` block of a talk payload. -/
structure Script where
  type : String
  input : String
  provider : Option Provider
deriving DecidableEq

/-- A talk-creation request body: `{ script, source_url }`. -/
structure TalkPayload where
  script : Script
  source_url : String
deriving DecidableEq

/-- `primaryBody`: minimal payload, no explicit voice provider. -/
def primaryBody (text sourceUrl : String) : TalkPayload :=
  ⟨⟨"text", text, none⟩, sourceUrl⟩

/-- `secondaryBody`: payload with explicit microsoft voice provider. -/
def secondaryBody (text sourceUrl voiceId : String) : TalkPayload :=
  ⟨⟨"text", text, some ⟨"microsoft", voiceId⟩⟩, sourceUrl⟩

/-- The two creation endpoints: `https://api.d-id.com/v1/talks` and the
legacy `https://api.d-id.com/talks`. -/
inductive Endpoint where
  | v1 : Endpoint
  | legacy : Endpoint
deriving DecidableEq

/-- One outbound talk-creation request as observed on the wire. -/
structure TalkRequest where
  endpoint : Endpoint
  payload : TalkPayload
  headers : AuthHeaders
deriving DecidableEq

/-- A mocked response to a creation request: `ok`, the error body text
(read when `!ok`) and the parsed `{ id }` (read when `ok`). -/
structure CreateResp where
  ok : Bool
  bodyText : String
  id : String

/-- `createTalk`: the 4-tier fallback cascade — (v1, primary),
(v1, secondary), (legacy, primary), (legacy, secondary) — stopping at the
first `ok` response, all with the same `baseHeaders`; when every tier
fails it throws ``D-ID create error: `` followed by the fourth tier's
body. Returns the outcome together with the list of requests issued,
in order. -/
def createTalk (studioApiKey basicAuth : Option String)
    (text sourceUrl voiceId : String)
    (oracle : TalkRequest → CreateResp) :
    Except String String × List TalkRequest :=
  let baseHeaders := buildAuthHeaders studioApiKey basicAuth
  let primary := primaryBody text sourceUrl
  let secondary := secondaryBody text sourceUrl voiceId
  let q1 : TalkRequest := ⟨.v1, primary, baseHeaders⟩
  let r1 := oracle q1
  if r1.ok then (.ok r1.id, [q1])
  else
    let q2 : TalkRequest := ⟨.v1, secondary, baseHeaders⟩
    let r2 := oracle q2
    if r2.ok then (.ok r2.id, [q1, q2])
    else
      let q3 : TalkRequest := ⟨.legacy, primary, baseHeaders⟩
      let r3 := oracle q3
      if r3.ok then (.ok r3.id, [q1, q2, q3])
      else
        let q4 : TalkRequest := ⟨.legacy, secondary, baseHeaders⟩
        let r4 := oracle q4
        if r4.ok then (.ok r4.id, [q1, q2, q3, q4])
        else (.error ("D-ID create error: " ++ r4.bodyText), [q1, q2, q3, q4])

/-- Tier 1: v1 endpoint, minimal payload. -/
def tier1Req (studioApiKey basicAuth : Option String)
    (text sourceUrl _voiceId : String) : TalkRequest :=
  ⟨.v1, primaryBody text sourceUrl, buildAuthHeaders studioApiKey basicAuth⟩

/-- Tier 2: v1 endpoint, voice-provider payload. -/
def tier2Req (studioApiKey basicAuth : Option String)
    (text sourceUrl voiceId : String) : TalkRequest :=
  ⟨.v1, secondaryBody text sourceUrl voiceId, buildAuthHeaders studioApiKey basicAuth⟩

/-- Tier 3: legacy endpoint, minimal payload. -/
def tier3Req (studioApiKey basicAuth : Option String)
    (text sourceUrl _voiceId : String) : TalkRequest :=
  ⟨.legacy, primaryBody text sourceUrl, buildAuthHeaders studioApiKey basicAuth⟩

/-- Tier 4: legacy endpoint, voice-provider payload. -/
def tier4Req (studioApiKey basicAuth : Option String)
    (text sourceUrl voiceId : String) : TalkRequest :=
  ⟨.legacy, secondaryBody text sourceUrl voiceId, buildAuthHeaders studioApiKey basicAuth⟩

/-- The four cascade requests, in tier order, as `createTalk` builds them. -/
def tierRequests (studioApiKey basicAuth : Option String)
    (text sourceUrl voiceId : String) : List TalkRequest :=
  [tier1Req studioApiKey basicAuth text sourceUrl voiceId,
   tier2Req studioApiKey basicAuth text sourceUrl voiceId,
   tier3Req studioApiKey basicAuth text sourceUrl voiceId,
   tier4Req studioApiKey basicAuth text sourceUrl voiceId]

/-- A parsed status response of `fetchTalkStatus`:
`{ id, status, result_url?, error? }`. -/
structure TalkStatus where
  id : String
  status : String
  result_url : Option String
  error : Option String
deriving DecidableEq

/-- `const timeoutMs = 30_000`. -/
def timeoutMs : Nat := 30000

/-- `const intervalMs = 1_200`. -/
def intervalMs : Nat := 1200

/-- Result of the polling `while` loop, recording the number of status
fetches issued and the elapsed time (ms since `startedAt`) when the loop
ended. -/
inductive PollResult where
  /-- `status == "done"` with a truthy `result_url`: break with the URL. -/
  | finished (resultUrl : String) (lastStatus : String) (polls : Nat) (elapsedEnd : Nat) : PollResult
  /-- `status == "error"`: immediate 502 return carrying `s.error`. -/
  | polledError (errDetail : Option String) (polls : Nat) (elapsedEnd : Nat) : PollResult
  /-- Deadline check failed: loop exits, `resultUrl` unset. -/
  | timedOut (lastStatus : String) (polls : Nat) (elapsedEnd : Nat) : PollResult
deriving DecidableEq

/-- The poll loop of the `POST` handler:
`while (Date.now() - startedAt < timeoutMs)` fetch the status (the `n`-th
fetch takes `fetchTime n` ms and yields `statuses n`), record
`lastStatus`, break on `done` with truthy `result_url`, return
immediately on `error`, else sleep `intervalMs` and re-check. `elapsed`
is `Date.now() - startedAt` at the loop-condition check. -/
def pollLoop (statuses : Nat → TalkStatus) (fetchTime : Nat → Nat)
    (n : Nat) (elapsed : Nat) (lastStatus : String) : PollResult :=
  if _h : elapsed < timeoutMs then
    let s := statuses n
    if s.status = "done" ∧ s.result_url.getD "" ≠ "" then
      .finished (s.result_url.getD "") s.status (n + 1) (elapsed + fetchTime n)
    else if s.status = "error" then
      .polledError s.error (n + 1) (elapsed + fetchTime n)
    else
      pollLoop statuses fetchTime (n + 1) (elapsed + fetchTime n + intervalMs) s.status
  else
    .timedOut lastStatus n elapsed
termination_by timeoutMs - elapsed
decreasing_by simp [timeoutMs, intervalMs] at *; omega

/-- Request body of `POST /api/did/talk`:
`{ text?, source_url?, voice_id? }`. -/
structure DidRequestBody where
  text : Option String
  source_url : Option String
  voice_id : Option String
deriving DecidableEq

/-- The distinguishable JSON bodies `POST /api/did/talk` can answer with. -/
inductive DidOutcome where
  /-- `{ error: "Missing D-ID credentials", detail }`, HTTP 500. -/
  | missingCreds : DidOutcome
  /-- The missing-text validation error body, HTTP 400. -/
  | missingText : DidOutcome
  /-- `{ error: "Request failed", detail: String(error) }`, HTTP 500. -/
  | caughtError (detail : String) : DidOutcome
  /-- `{ error: "D-ID processing error", detail, id }`, HTTP 502. -/
  | processingError (detail : Option String) (id : String) : DidOutcome
  /-- `{ error: "Timeout waiting for video", id, status }`, HTTP 504. -/
  | timeoutErr (id : String) (lastStatus : String) : DidOutcome
  /-- `{ id, videoUrl }`, HTTP 200. -/
  | videoReady (id : String) (videoUrl : String) : DidOutcome
deriving DecidableEq

/-- HTTP status code attached to each outcome by the handler. -/
def didStatusCode : DidOutcome → Nat
  | .missingCreds => 500
  | .missingText => 400
  | .caughtError _ => 500
  | .processingError _ _ => 502
  | .timeoutErr _ _ => 504
  | .videoReady _ _ => 200

/-- Observable result of one `POST /api/did/talk` invocation: the
response, the creation requests issued, and the number of status polls. -/
structure DidResult where
  outcome : DidOutcome
  createAttempts : List TalkRequest
  polls : Nat
deriving DecidableEq

/-- The `POST` handler of `src/app/api/did/talk/route.ts`.
`didKey`/`nextKey`/`rawBasic` are the raw environment values
`DID_API_KEY` / `NEXT_PUBLIC_DID_API_KEY` / `DID_BASIC_AUTH`; `oracle`
mocks the creation endpoint and `statuses`/`fetchTime` mock the status
endpoint (the `n`-th poll's parsed response and duration). A thrown
`createTalk` error is caught by the outer handler and reported as
`String(error)` — `"Error: "` plus the message — with HTTP 500. -/
def didPOST (didKey nextKey rawBasic : Option String)
    (body : Option DidRequestBody)
    (oracle : TalkRequest → CreateResp)
    (statuses : Nat → TalkStatus) (fetchTime : Nat → Nat) : DidResult :=
  let studioApiKey := jsOrNull didKey nextKey
  let basicAuth := if jsTruthy rawBasic then rawBasic else none
  if !(jsTruthy studioApiKey || jsTruthy basicAuth) then ⟨.missingCreds, [], 0⟩
  else
    match body with
    | none => ⟨.missingText, [], 0⟩
    | some b =>
      match b.text with
      | none => ⟨.missingText, [], 0⟩
      | some t0 =>
        let text := jsTrim t0
        if text = "" then ⟨.missingText, [], 0⟩
        else
          let sourceUrl := jsOrDefault b.source_url DEFAULT_SOURCE_URL
          let voiceId := jsOrDefault b.voice_id DEFAULT_VOICE_ID
          match createTalk studioApiKey basicAuth text sourceUrl voiceId oracle with
          | (.error msg, attempts) => ⟨.caughtError ("Error: " ++ msg), attempts, 0⟩
          | (.ok id, attempts) =>
            match pollLoop statuses fetchTime 0 0 "" with
            | .finished url _ k _ => ⟨.videoReady id url, attempts, k⟩
            | .polledError detail k _ => ⟨.processingError detail id, attempts, k⟩
            | .timedOut last k _ => ⟨.timeoutErr id last, attempts, k⟩

/-! ## Theorems -/

/-- Claim C1: for non-empty input, a cache entry under the normalized key
(trimmed, lower-cased) younger than 5 minutes is returned as-is with no
upstream fetch; consequently two `generate` calls with the same
normalized text inside the TTL window return identical replies and cause
exactly one upstream invocation in total. -/
theorem gemini_cache_hit :
    (∀ (a t : String) (cache : Cache) (now : Nat) (entry : CacheEntry)
       (upstream : GeminiUpstream),
      a ≠ "" → jsTrim t ≠ "" →
      cache (jsToLower (jsTrim t)) = some entry →
      now - entry.timestamp < CACHE_DURATION →
      geminiPOST (some a) (some t) cache now upstream
        = ⟨.reply entry.response, cache, 0⟩) ∧
    (∀ (a t1 t2 : String) (cache : Cache) (now1 now2 : Nat)
       (up1 up2 : GeminiUpstream),
      a ≠ "" → jsTrim t1 ≠ "" → jsTrim t2 ≠ "" →
      jsToLower (jsTrim t1) = jsToLower (jsTrim t2) →
      (∀ e, cache (jsToLower (jsTrim t1)) = some e →
        CACHE_DURATION ≤ now1 - e.timestamp) →
      up1.ok = true →
      now2 - now1 < CACHE_DURATION →
      (geminiPOST (some a) (some t2)
          (geminiPOST (some a) (some t1) cache now1 up1).cache now2 up2).outcome
        = (geminiPOST (some a) (some t1) cache now1 up1).outcome ∧
      (geminiPOST (some a) (some t1) cache now1 up1).upstreamCalls
        + (geminiPOST (some a) (some t2)
            (geminiPOST (some a) (some t1) cache now1 up1).cache now2 up2).upstreamCalls
        = 1) := by
  constructor
  · intro a t cache now entry upstream ha ht hc hfresh
    simp [geminiPOST, ha, ht, hc, hfresh]
  · intro a t1 t2 cache now1 now2 up1 up2 ha h1 h2 hkeys hstale hok hfresh
    have hr1 : geminiPOST (some a) (some t1) cache now1 up1
        = ⟨.reply (extractCandidateText up1.data),
           cacheSet cache (jsToLower (jsTrim t1))
             ⟨extractCandidateText up1.data, now1⟩, 1⟩ := by
      rcases hcc : cache (jsToLower (jsTrim t1)) with _ | e
      · simp [geminiPOST, ha, h1, hcc, hok]
      · have hst := hstale e hcc
        simp [geminiPOST, ha, h1, hcc, hok, Nat.not_lt.2 hst]
    have hlook : cacheSet cache (jsToLower (jsTrim t1))
        ⟨extractCandidateText up1.data, now1⟩ (jsToLower (jsTrim t2))
        = some ⟨extractCandidateText up1.data, now1⟩ := by
      simp [cacheSet, ← hkeys]
    have hr2 : geminiPOST (some a) (some t2)
        (cacheSet cache (jsToLower (jsTrim t1))
          ⟨extractCandidateText up1.data, now1⟩) now2 up2
        = ⟨.reply (extractCandidateText up1.data),
           cacheSet cache (jsToLower (jsTrim t1))
             ⟨extractCandidateText up1.data, now1⟩, 0⟩ := by
      simp [geminiPOST, ha, h2, hlook, hfresh]
    rw [hr1]
    exact ⟨by rw [hr2], by rw [hr2]; rfl⟩

/-- Concrete cache holding `"hello" ↦ ⟨"hi!", 0⟩`, for witnesses. -/
def wCacheHit : Cache := fun s => if s = "hello" then some ⟨"hi!", 0⟩ else none

/-- The everywhere-empty cache, for witnesses. -/
def wEmptyCache : Cache := fun _ => none

/-- A successful upstream response whose first candidate text is
`"Hi there!"`, for witnesses. -/
def wUp : GeminiUpstream :=
  ⟨true, 200, "", ⟨some [⟨some ⟨some [⟨some "Hi there!"⟩]⟩⟩]⟩⟩

/-- Witness for C1 at concrete inputs. -/
theorem gemini_cache_hit_witness :
    geminiPOST (some "k") (some " Hello ") wCacheHit 1000 wUp
      = ⟨.reply "hi!", wCacheHit, 0⟩ ∧
    ((geminiPOST (some "k") (some "HELLO ")
        (geminiPOST (some "k") (some "Hello") wEmptyCache 0 wUp).cache 1000 wUp).outcome
      = (geminiPOST (some "k") (some "Hello") wEmptyCache 0 wUp).outcome ∧
     (geminiPOST (some "k") (some "Hello") wEmptyCache 0 wUp).upstreamCalls
      + (geminiPOST (some "k") (some "HELLO ")
          (geminiPOST (some "k") (some "Hello") wEmptyCache 0 wUp).cache 1000 wUp).upstreamCalls
      = 1) := by
  constructor
  · exact gemini_cache_hit.1 "k" " Hello " wCacheHit 1000 ⟨"hi!", 0⟩ wUp
      (by decide) (by decide) rfl (by decide)
  · exact gemini_cache_hit.2 "k" "Hello" "HELLO " wEmptyCache 0 1000 wUp wUp
      (by decide) (by decide) (by decide) (by decide)
      (by intro e h; simp [wEmptyCache] at h) rfl (by decide)

/-- Claim C6: an entry older than the 5-minute TTL is never served — at
any call time at or beyond `t0 + TTL` a fresh upstream call is made, and
on success the entry is overwritten with the new reply and timestamp. -/
theorem gemini_cache_expiry :
    ∀ (a t : String) (cache : Cache) (now : Nat) (entry : CacheEntry)
      (upstream : GeminiUpstream),
      a ≠ "" → jsTrim t ≠ "" →
      cache (jsToLower (jsTrim t)) = some entry →
      entry.timestamp + CACHE_DURATION ≤ now →
      (geminiPOST (some a) (some t) cache now upstream).upstreamCalls = 1 ∧
      (upstream.ok = true →
        geminiPOST (some a) (some t) cache now upstream
          = ⟨.reply (extractCandidateText upstream.data),
             cacheSet cache (jsToLower (jsTrim t))
               ⟨extractCandidateText upstream.data, now⟩, 1⟩) := by
  intro a t cache now entry upstream ha ht hc hexp
  have hstale : ¬ (now - entry.timestamp < CACHE_DURATION) := by omega
  constructor
  · rcases hok : upstream.ok with _ | _ <;>
      simp [geminiPOST, ha, ht, hc, hstale, hok]
  · intro hok
    simp [geminiPOST, ha, ht, hc, hstale, hok]

/-- Witness for C6: the `"hello"` entry written at time 0 is expired at
exactly `CACHE_DURATION`. -/
theorem gemini_cache_expiry_witness :
    (geminiPOST (some "k") (some "hello") wCacheHit CACHE_DURATION wUp).upstreamCalls = 1 ∧
    geminiPOST (some "k") (some "hello") wCacheHit CACHE_DURATION wUp
      = ⟨.reply (extractCandidateText wUp.data),
         cacheSet wCacheHit (jsToLower (jsTrim "hello"))
           ⟨extractCandidateText wUp.data, CACHE_DURATION⟩, 1⟩ := by
  have h := gemini_cache_expiry "k" "hello" wCacheHit CACHE_DURATION ⟨"hi!", 0⟩ wUp
    (by decide) (by decide) rfl (by decide)
  exact ⟨h.1, h.2 rfl⟩

/-- Claim C7: empty or whitespace-only text is rejected by both handlers
with a 400 validation error, zero upstream calls, and no cache
read/write (the gemini result is `⟨missingText, cache, 0⟩` for every
cache, unchanged). -/
theorem empty_text_validation :
    (∀ (a t : String) (cache : Cache) (now : Nat) (up : GeminiUpstream),
      a ≠ "" → jsTrim t = "" →
      geminiPOST (some a) (some t) cache now up = ⟨.missingText, cache, 0⟩ ∧
      geminiStatusCode .missingText = 400) ∧
    (∀ (dk : String) (nk rb : Option String) (srcO vO : Option String)
       (t0 : String) (oracle : TalkRequest → CreateResp)
       (statuses : Nat → TalkStatus) (ft : Nat → Nat),
      dk ≠ "" → jsTrim t0 = "" →
      didPOST (some dk) nk rb (some ⟨some t0, srcO, vO⟩) oracle statuses ft
        = ⟨.missingText, [], 0⟩ ∧
      didStatusCode .missingText = 400) := by
  constructor
  · intro a t cache now up ha ht
    exact ⟨by simp [geminiPOST, ha, ht], rfl⟩
  · intro dk nk rb srcO vO t0 oracle statuses ft hdk ht
    exact ⟨by simp [didPOST, jsOrNull, jsTruthy, hdk, ht], rfl⟩

/-- Witness for C7 on the whitespace-only input `"   "`. -/
theorem empty_text_validation_witness :
    (geminiPOST (some "k") (some "   ") wEmptyCache 0 wUp
      = ⟨.missingText, wEmptyCache, 0⟩ ∧
     geminiStatusCode .missingText = 400) ∧
    (didPOST (some "k") none none (some ⟨some "   ", none, none⟩)
        (fun _ => ⟨false, "", ""⟩) (fun _ => ⟨"", "", none, none⟩) (fun _ => 0)
      = ⟨.missingText, [], 0⟩ ∧
     didStatusCode .missingText = 400) := by
  constructor
  · exact empty_text_validation.1 "k" "   " wEmptyCache 0 wUp (by decide) (by decide)
  · exact empty_text_validation.2 "k" none none none none "   "
      (fun _ => ⟨false, "", ""⟩) (fun _ => ⟨"", "", none, none⟩) (fun _ => 0)
      (by decide) (by decide)

/-- Claim C8: reply extraction from an upstream success is total — the
first candidate's text, or `""` at any missing level of the
candidates/content/parts shape — and the extracted string (empty
included) is cached under the computed key with the current timestamp
and returned. -/
theorem gemini_extraction_total :
    (∀ (a t : String) (cache : Cache) (now : Nat) (up : GeminiUpstream),
      a ≠ "" → jsTrim t ≠ "" →
      cache (jsToLower (jsTrim t)) = none →
      up.ok = true →
      geminiPOST (some a) (some t) cache now up
        = ⟨.reply (extractCandidateText up.data),
           cacheSet cache (jsToLower (jsTrim t))
             ⟨extractCandidateText up.data, now⟩, 1⟩) ∧
    extractCandidateText ⟨none⟩ = "" ∧
    extractCandidateText ⟨some []⟩ = "" ∧
    (∀ cs, extractCandidateText ⟨some (⟨none⟩ :: cs)⟩ = "") ∧
    (∀ cs, extractCandidateText ⟨some (⟨some ⟨none⟩⟩ :: cs)⟩ = "") ∧
    (∀ cs, extractCandidateText ⟨some (⟨some ⟨some []⟩⟩ :: cs)⟩ = "") ∧
    (∀ cs ps, extractCandidateText ⟨some (⟨some ⟨some (⟨none⟩ :: ps)⟩⟩ :: cs)⟩ = "") ∧
    (∀ (s : String) cs ps,
      extractCandidateText ⟨some (⟨some ⟨some (⟨some s⟩ :: ps)⟩⟩ :: cs)⟩ = s) := by
  refine ⟨?_, rfl, rfl, fun _ => rfl, fun _ => rfl, fun _ => rfl,
    fun _ _ => rfl, fun _ _ _ => rfl⟩
  intro a t cache now up ha ht hc hok
  simp [geminiPOST, ha, ht, hc, hok]

/-- Witness for C8: a malformed upstream body (no `parts`) yields a
cached and returned empty reply. -/
theorem gemini_extraction_total_witness :
    geminiPOST (some "k") (some "Hi") wEmptyCache 7
        ⟨true, 200, "", ⟨some [⟨some ⟨none⟩⟩]⟩⟩
      = ⟨.reply (extractCandidateText ⟨some [⟨some ⟨none⟩⟩]⟩),
         cacheSet wEmptyCache (jsToLower (jsTrim "Hi"))
           ⟨extractCandidateText ⟨some [⟨some ⟨none⟩⟩]⟩, 7⟩, 1⟩ ∧
    extractCandidateText ⟨some [⟨some ⟨none⟩⟩]⟩ = "" := by
  exact ⟨gemini_extraction_total.1 "k" "Hi" wEmptyCache 7
      ⟨true, 200, "", ⟨some [⟨some ⟨none⟩⟩]⟩⟩ (by decide) (by decide) rfl rfl,
    gemini_extraction_total.2.2.2.2.1 []⟩

/-- Claim C10: in both handlers the credential check strictly precedes
input validation — with credentials absent the result is the 500
configuration error for every request body, including one with empty
text, never the 400 validation error. -/
theorem creds_check_first :
    (∀ (apiKey : Option String) (bodyText : Option String) (cache : Cache)
       (now : Nat) (up : GeminiUpstream),
      apiKey = none ∨ apiKey = some "" →
      geminiPOST apiKey bodyText cache now up = ⟨.missingKey, cache, 0⟩ ∧
      geminiStatusCode .missingKey = 500 ∧
      GeminiOutcome.missingKey ≠ .missingText) ∧
    (∀ (dk nk rb : Option String) (body : Option DidRequestBody)
       (oracle : TalkRequest → CreateResp) (statuses : Nat → TalkStatus)
       (ft : Nat → Nat),
      jsTruthy dk = false → jsTruthy nk = false → jsTruthy rb = false →
      didPOST dk nk rb body oracle statuses ft = ⟨.missingCreds, [], 0⟩ ∧
      didStatusCode .missingCreds = 500 ∧
      DidOutcome.missingCreds ≠ .missingText) := by
  constructor
  · intro apiKey bodyText cache now up hk
    rcases hk with h | h <;> subst h <;>
      exact ⟨by simp [geminiPOST], rfl, by decide⟩
  · intro dk nk rb body oracle statuses ft hdk hnk hrb
    refine ⟨?_, rfl, by decide⟩
    have h1 : jsOrNull dk nk = none := by simp [jsOrNull, hdk, hnk]
    have h2 : (if jsTruthy rb then rb else none) = none := by simp [hrb]
    unfold didPOST
    rw [h1, h2]
    simp [jsTruthy]

/-- Witness for C10: missing credentials together with empty text yield
the configuration error, not the validation error. -/
theorem creds_check_first_witness :
    (geminiPOST none (some "") wEmptyCache 0 wUp = ⟨.missingKey, wEmptyCache, 0⟩ ∧
     geminiStatusCode .missingKey = 500 ∧
     GeminiOutcome.missingKey ≠ .missingText) ∧
    (didPOST none none (some "") (some ⟨some "", none, none⟩)
        (fun _ => ⟨false, "", ""⟩) (fun _ => ⟨"", "", none, none⟩) (fun _ => 0)
      = ⟨.missingCreds, [], 0⟩ ∧
     didStatusCode .missingCreds = 500 ∧
     DidOutcome.missingCreds ≠ .missingText) := by
  constructor
  · exact creds_check_first.1 none (some "") wEmptyCache 0 wUp (Or.inl rfl)
  · exact creds_check_first.2 none none (some "") (some ⟨some "", none, none⟩)
      (fun _ => ⟨false, "", ""⟩) (fun _ => ⟨"", "", none, none⟩) (fun _ => 0)
      rfl rfl rfl

/-- Every request issued by the cascade carries the same `baseHeaders`
resolved once from the credentials. -/
theorem createTalk_headers_eq (sk ba : Option String)
    (text sourceUrl voiceId : String) (oracle : TalkRequest → CreateResp) :
    ∀ q ∈ (createTalk sk ba text sourceUrl voiceId oracle).2,
      q.headers = buildAuthHeaders sk ba := by
  rcases h1 : (oracle (tier1Req sk ba text sourceUrl voiceId)).ok with _ | _ <;>
    rcases h2 : (oracle (tier2Req sk ba text sourceUrl voiceId)).ok with _ | _ <;>
      rcases h3 : (oracle (tier3Req sk ba text sourceUrl voiceId)).ok with _ | _ <;>
        rcases h4 : (oracle (tier4Req sk ba text sourceUrl voiceId)).ok with _ | _ <;>
          simp_all [createTalk, tier1Req, tier2Req, tier3Req, tier4Req]

/-- Claim C2: `createTalk` tries exactly the four (endpoint, payload)
tiers in strict order — v1+minimal, v1+voice-provider, legacy+minimal,
legacy+voice-provider — stops at the first success, sends every tier
with the same authentication headers, and when tiers 1–3 fail and tier 4
succeeds the returned job id is that of tier 4 after all four attempts in
order. -/
theorem createTalk_tier_cascade :
    ∀ (sk ba : Option String) (text sourceUrl voiceId : String)
      (oracle : TalkRequest → CreateResp),
      ((oracle (tier1Req sk ba text sourceUrl voiceId)).ok = true →
        createTalk sk ba text sourceUrl voiceId oracle
          = (.ok (oracle (tier1Req sk ba text sourceUrl voiceId)).id,
             [tier1Req sk ba text sourceUrl voiceId])) ∧
      ((oracle (tier1Req sk ba text sourceUrl voiceId)).ok = false →
       (oracle (tier2Req sk ba text sourceUrl voiceId)).ok = true →
        createTalk sk ba text sourceUrl voiceId oracle
          = (.ok (oracle (tier2Req sk ba text sourceUrl voiceId)).id,
             [tier1Req sk ba text sourceUrl voiceId,
              tier2Req sk ba text sourceUrl voiceId])) ∧
      ((oracle (tier1Req sk ba text sourceUrl voiceId)).ok = false →
       (oracle (tier2Req sk ba text sourceUrl voiceId)).ok = false →
       (oracle (tier3Req sk ba text sourceUrl voiceId)).ok = true →
        createTalk sk ba text sourceUrl voiceId oracle
          = (.ok (oracle (tier3Req sk ba text sourceUrl voiceId)).id,
             [tier1Req sk ba text sourceUrl voiceId,
              tier2Req sk ba text sourceUrl voiceId,
              tier3Req sk ba text sourceUrl voiceId])) ∧
      ((oracle (tier1Req sk ba text sourceUrl voiceId)).ok = false →
       (oracle (tier2Req sk ba text sourceUrl voiceId)).ok = false →
       (oracle (tier3Req sk ba text sourceUrl voiceId)).ok = false →
       (oracle (tier4Req sk ba text sourceUrl voiceId)).ok = true →
        createTalk sk ba text sourceUrl voiceId oracle
          = (.ok (oracle (tier4Req sk ba text sourceUrl voiceId)).id,
             tierRequests sk ba text sourceUrl voiceId)) ∧
      (∀ q ∈ (createTalk sk ba text sourceUrl voiceId oracle).2,
        q.headers = buildAuthHeaders sk ba) := by
  intro sk ba text sourceUrl voiceId oracle
  refine ⟨fun h1 => ?_, fun h1 h2 => ?_, fun h1 h2 h3 => ?_,
    fun h1 h2 h3 h4 => ?_, createTalk_headers_eq sk ba text sourceUrl voiceId oracle⟩
  · simp [createTalk, tier1Req] at h1 ⊢
    simp [h1]
  · simp [createTalk, tier1Req, tier2Req] at h1 h2 ⊢
    simp [h1, h2]
  · simp [createTalk, tier1Req, tier2Req, tier3Req] at h1 h2 h3 ⊢
    simp [h1, h2, h3]
  · simp [createTalk, tierRequests, tier1Req, tier2Req, tier3Req, tier4Req] at h1 h2 h3 h4 ⊢
    simp [h1, h2, h3, h4]

/-- Oracle failing tiers 1–3 (v1 endpoint, or minimal payload) and
succeeding only on tier 4, for witnesses. -/
def wOracleTier4 : TalkRequest → CreateResp := fun q =>
  match q.endpoint, q.payload.script.provider with
  | .legacy, some _ => ⟨true, "", "job4"⟩
  | _, _ => ⟨false, "unsupported", ""⟩

/-- Witness for C2: tiers 1–3 fail, tier 4 succeeds, the job id is tier
of tier 4 and all four requests went out in order. -/
theorem createTalk_tier_cascade_witness :
    createTalk (some "k") none "hi" "src" "v" wOracleTier4
      = (.ok "job4", tierRequests (some "k") none "hi" "src" "v") := by
  have h := (createTalk_tier_cascade (some "k") none "hi" "src" "v" wOracleTier4).2.2.2.1
    rfl rfl rfl rfl
  exact h

/-- Claim C9: with both a Basic-auth credential and an API key configured
(non-blank after trimming), `buildAuthHeaders` emits only the Basic
`Authorization` header — prefixing the `"Basic "` scheme when absent —
and no `x-api-key` header; the resolved headers are reused for every
tier of a submission cascade. -/
theorem buildAuthHeaders_basic_precedence :
    (∀ (k b : String), jsTrim b ≠ "" → jsTrim k ≠ "" →
      buildAuthHeaders (some k) (some b)
        = ⟨"application/json",
           some (if jsStartsWith (jsTrim b) "Basic " then jsTrim b
                 else "Basic " ++ jsTrim b), none⟩) ∧
    (∀ (sk ba : Option String) (text sourceUrl voiceId : String)
       (oracle : TalkRequest → CreateResp),
      ∀ q ∈ (createTalk sk ba text sourceUrl voiceId oracle).2,
        q.headers = buildAuthHeaders sk ba) := by
  constructor
  · intro k b hb hk
    have hb0 : b ≠ "" := by
      intro h
      subst h
      exact hb rfl
    simp [buildAuthHeaders, hb0, hb]
  · intro sk ba text sourceUrl voiceId oracle
    exact createTalk_headers_eq sk ba text sourceUrl voiceId oracle

/-- Witness for C9: key `"apikey"` and credential `"zzz"` produce only
`Authorization: Basic zzz`; the cascade reuses those headers. -/
theorem buildAuthHeaders_basic_precedence_witness :
    buildAuthHeaders (some "apikey") (some "zzz")
      = ⟨"application/json",
         some (if jsStartsWith (jsTrim "zzz") "Basic " then jsTrim "zzz"
               else "Basic " ++ jsTrim "zzz"), none⟩ ∧
    (∀ q ∈ (createTalk (some "apikey") (some "zzz") "hi" "src" "v" wOracleTier4).2,
      q.headers = buildAuthHeaders (some "apikey") (some "zzz")) := by
  exact ⟨buildAuthHeaders_basic_precedence.1 "apikey" "zzz" (by decide) (by decide),
    buildAuthHeaders_basic_precedence.2 (some "apikey") (some "zzz") "hi" "src" "v"
      wOracleTier4⟩

/-- Oracle on which every creation tier fails, for the C3 scenario. -/
def wOracleAllFail : TalkRequest → CreateResp := fun _ =>
  ⟨false, "no deployment accepts this payload", ""⟩

/-- Counterexample to claim C3 as stated: with all four tiers failing,
the handler reports HTTP status 500 (the generic request-failure
handler catches the thrown create error), not 502. -/
theorem all_tiers_fail_not_502 :
    didStatusCode (didPOST (some "k") none none (some ⟨some "hello", none, none⟩)
        wOracleAllFail (fun _ => ⟨"", "", none, none⟩) (fun _ => 0)).outcome = 500 ∧
    didStatusCode (didPOST (some "k") none none (some ⟨some "hello", none, none⟩)
        wOracleAllFail (fun _ => ⟨"", "", none, none⟩) (fun _ => 0)).outcome ≠ 502 := by
  exact ⟨rfl, by decide⟩

/-- Claim C3 (amended): when every submission tier fails, the caller
receives the caught `D-ID create error` wrapping exactly the fourth
tier's error body — earlier tier failures never reach the caller — and
the response carries HTTP status 500 through the generic request-failure
handler (not 502), with no poll issued. -/
theorem didPOST_all_tiers_fail_wraps_final :
    ∀ (dk : String) (nk : Option String) (t0 : String) (srcO vO : Option String)
      (oracle : TalkRequest → CreateResp) (statuses : Nat → TalkStatus)
      (ft : Nat → Nat),
      dk ≠ "" → jsTrim t0 ≠ "" →
      (oracle (tier1Req (some dk) none (jsTrim t0)
        (jsOrDefault srcO DEFAULT_SOURCE_URL) (jsOrDefault vO DEFAULT_VOICE_ID))).ok = false →
      (oracle (tier2Req (some dk) none (jsTrim t0)
        (jsOrDefault srcO DEFAULT_SOURCE_URL) (jsOrDefault vO DEFAULT_VOICE_ID))).ok = false →
      (oracle (tier3Req (some dk) none (jsTrim t0)
        (jsOrDefault srcO DEFAULT_SOURCE_URL) (jsOrDefault vO DEFAULT_VOICE_ID))).ok = false →
      (oracle (tier4Req (some dk) none (jsTrim t0)
        (jsOrDefault srcO DEFAULT_SOURCE_URL) (jsOrDefault vO DEFAULT_VOICE_ID))).ok = false →
      didPOST (some dk) nk none (some ⟨some t0, srcO, vO⟩) oracle statuses ft
        = ⟨.caughtError ("Error: " ++ ("D-ID create error: "
             ++ (oracle (tier4Req (some dk) none (jsTrim t0)
                  (jsOrDefault srcO DEFAULT_SOURCE_URL)
                  (jsOrDefault vO DEFAULT_VOICE_ID))).bodyText)),
           tierRequests (some dk) none (jsTrim t0)
             (jsOrDefault srcO DEFAULT_SOURCE_URL) (jsOrDefault vO DEFAULT_VOICE_ID),
           0⟩ ∧
      didStatusCode (didPOST (some dk) nk none (some ⟨some t0, srcO, vO⟩)
        oracle statuses ft).outcome = 500 := by
  intro dk nk t0 srcO vO oracle statuses ft hdk ht h1 h2 h3 h4
  have hct : createTalk (some dk) none (jsTrim t0)
      (jsOrDefault srcO DEFAULT_SOURCE_URL) (jsOrDefault vO DEFAULT_VOICE_ID) oracle
      = (.error ("D-ID create error: "
          ++ (oracle (tier4Req (some dk) none (jsTrim t0)
               (jsOrDefault srcO DEFAULT_SOURCE_URL)
               (jsOrDefault vO DEFAULT_VOICE_ID))).bodyText),
         tierRequests (some dk) none (jsTrim t0)
           (jsOrDefault srcO DEFAULT_SOURCE_URL) (jsOrDefault vO DEFAULT_VOICE_ID)) := by
    simp [createTalk, tierRequests, tier1Req, tier2Req, tier3Req, tier4Req] at h1 h2 h3 h4 ⊢
    simp [h1, h2, h3, h4]
  have hres : jsOrNull (some dk) nk = some dk := by simp [jsOrNull, jsTruthy, hdk]
  have hmain : didPOST (some dk) nk none (some ⟨some t0, srcO, vO⟩) oracle statuses ft
      = ⟨.caughtError ("Error: " ++ ("D-ID create error: "
           ++ (oracle (tier4Req (some dk) none (jsTrim t0)
                (jsOrDefault srcO DEFAULT_SOURCE_URL)
                (jsOrDefault vO DEFAULT_VOICE_ID))).bodyText)),
         tierRequests (some dk) none (jsTrim t0)
           (jsOrDefault srcO DEFAULT_SOURCE_URL) (jsOrDefault vO DEFAULT_VOICE_ID),
         0⟩ := by
    unfold didPOST
    rw [hres]
    simp [jsTruthy, hdk, ht, hct]
  exact ⟨hmain, by rw [hmain]; rfl⟩

/-- Witness for C3's amended theorem at concrete inputs. -/
theorem didPOST_all_tiers_fail_wraps_final_witness :
    didPOST (some "k") none none (some ⟨some "hello", none, none⟩)
        wOracleAllFail (fun _ => ⟨"", "", none, none⟩) (fun _ => 0)
      = ⟨.caughtError ("Error: " ++ ("D-ID create error: "
           ++ (wOracleAllFail (tier4Req (some "k") none (jsTrim "hello")
                (jsOrDefault none DEFAULT_SOURCE_URL)
                (jsOrDefault none DEFAULT_VOICE_ID))).bodyText)),
         tierRequests (some "k") none (jsTrim "hello")
           (jsOrDefault none DEFAULT_SOURCE_URL) (jsOrDefault none DEFAULT_VOICE_ID),
         0⟩ ∧
    didStatusCode (didPOST (some "k") none none (some ⟨some "hello", none, none⟩)
        wOracleAllFail (fun _ => ⟨"", "", none, none⟩) (fun _ => 0)).outcome = 500 := by
  exact didPOST_all_tiers_fail_wraps_final "k" none "hello" none none
    wOracleAllFail (fun _ => ⟨"", "", none, none⟩) (fun _ => 0)
    (by decide) (by decide) rfl rfl rfl rfl

/-- One poll whose response has `status = "error"` ends the loop with
exactly that poll counted and no interval delay added. -/
theorem pollLoop_error_step (statuses : Nat → TalkStatus) (ft : Nat → Nat)
    (n elapsed : Nat) (last : String)
    (hlt : elapsed < timeoutMs) (herr : (statuses n).status = "error") :
    pollLoop statuses ft n elapsed last
      = .polledError (statuses n).error (n + 1) (elapsed + ft n) := by
  rw [pollLoop]
  simp [hlt, herr]

/-- Claim C4: a status response with `status: "error"` terminates the
poll loop immediately — the result counts only that poll and no further
delay — and the invocation returns the 502 processing error embedding
that response's error detail and the job id. -/
theorem poll_error_fail_fast :
    (∀ (statuses : Nat → TalkStatus) (ft : Nat → Nat) (n elapsed : Nat)
       (last : String),
      elapsed < timeoutMs → (statuses n).status = "error" →
      pollLoop statuses ft n elapsed last
        = .polledError (statuses n).error (n + 1) (elapsed + ft n)) ∧
    (∀ (dk : String) (nk : Option String) (t0 : String) (srcO vO : Option String)
       (oracle : TalkRequest → CreateResp) (statuses : Nat → TalkStatus)
       (ft : Nat → Nat) (jobId : String) (attempts : List TalkRequest),
      dk ≠ "" → jsTrim t0 ≠ "" →
      createTalk (some dk) none (jsTrim t0) (jsOrDefault srcO DEFAULT_SOURCE_URL)
        (jsOrDefault vO DEFAULT_VOICE_ID) oracle = (.ok jobId, attempts) →
      (statuses 0).status = "error" →
      didPOST (some dk) nk none (some ⟨some t0, srcO, vO⟩) oracle statuses ft
        = ⟨.processingError (statuses 0).error jobId, attempts, 1⟩ ∧
      didStatusCode (.processingError (statuses 0).error jobId) = 502) := by
  refine ⟨pollLoop_error_step, ?_⟩
  intro dk nk t0 srcO vO oracle statuses ft jobId attempts hdk ht hct herr
  have hres : jsOrNull (some dk) nk = some dk := by simp [jsOrNull, jsTruthy, hdk]
  have hpoll : pollLoop statuses ft 0 0 ""
      = .polledError (statuses 0).error 1 (0 + ft 0) :=
    pollLoop_error_step statuses ft 0 0 "" (by decide) herr
  refine ⟨?_, rfl⟩
  unfold didPOST
  rw [hres]
  simp [jsTruthy, hdk, ht, hct, hpoll]

/-- Oracle whose first (v1, minimal) tier immediately succeeds with job
id `"job123"`, for witnesses. -/
def wOracleTier1 : TalkRequest → CreateResp := fun _ => ⟨true, "", "job123"⟩

/-- All-polls-error status schedule, for the C4 witness. -/
def wErrStatuses : Nat → TalkStatus := fun _ => ⟨"job123", "error", none, some "boom"⟩

/-- Witness for C4: the first poll reports `"error"`; the handler stops
after that single poll and answers 502 with detail `"boom"` and the job
id. -/
theorem poll_error_fail_fast_witness :
    didPOST (some "k") none none (some ⟨some "hi", none, none⟩)
        wOracleTier1 wErrStatuses (fun _ => 0)
      = ⟨.processingError (some "boom") "job123",
         [tier1Req (some "k") none (jsTrim "hi")
           (jsOrDefault none DEFAULT_SOURCE_URL) (jsOrDefault none DEFAULT_VOICE_ID)],
         1⟩ ∧
    didStatusCode (.processingError (some "boom") "job123") = 502 := by
  exact poll_error_fail_fast.2 "k" none "hi" none none wOracleTier1 wErrStatuses
    (fun _ => 0) "job123"
    [tier1Req (some "k") none (jsTrim "hi")
      (jsOrDefault none DEFAULT_SOURCE_URL) (jsOrDefault none DEFAULT_VOICE_ID)]
    (by decide) (by decide) rfl rfl

/-- While every response is `"pending"`, the loop keeps polling and ends
at the wall-clock deadline with last status `"pending"`, having issued
at least one more poll (induction on the remaining time). -/
theorem pollLoop_pending_go (statuses : Nat → TalkStatus) (ft : Nat → Nat)
    (hp : ∀ i, (statuses i).status = "pending") :
    ∀ (r n elapsed : Nat) (last : String),
      timeoutMs - elapsed ≤ r → elapsed < timeoutMs →
      ∃ k e, pollLoop statuses ft n elapsed last = .timedOut "pending" k e ∧
        timeoutMs ≤ e ∧ n + 1 ≤ k := by
  intro r
  induction r with
  | zero =>
    intro n elapsed last hr hlt
    omega
  | succ r ih =>
    intro n elapsed last hr hlt
    rw [pollLoop]
    simp only [dif_pos hlt]
    rw [hp n]
    simp only [String.reduceEq, false_and, if_false, ite_false]
    by_cases hnext : elapsed + ft n + intervalMs < timeoutMs
    · obtain ⟨k, e, heq, he, hk⟩ :=
        ih (n + 1) (elapsed + ft n + intervalMs) "pending"
          (by simp [intervalMs] at *; omega) hnext
      exact ⟨k, e, heq, he, by omega⟩
    · rw [pollLoop]
      simp only [dif_neg hnext]
      exact ⟨n + 1, elapsed + ft n + intervalMs, rfl, by omega, by omega⟩

/-- Claim C5: when no poll response is terminal (`"pending"` throughout,
any non-`done`/non-`error` status continuing the loop), the loop ends
once the 30-second deadline elapses and the invocation returns the 504
timeout error carrying the job id and the last observed status
`"pending"`. -/
theorem poll_pending_timeout :
    (∀ (statuses : Nat → TalkStatus) (ft : Nat → Nat) (n elapsed : Nat)
       (last : String),
      elapsed < timeoutMs →
      ¬((statuses n).status = "done" ∧ (statuses n).result_url.getD "" ≠ "") →
      (statuses n).status ≠ "error" →
      pollLoop statuses ft n elapsed last
        = pollLoop statuses ft (n + 1) (elapsed + ft n + intervalMs)
            (statuses n).status) ∧
    (∀ (statuses : Nat → TalkStatus) (ft : Nat → Nat),
      (∀ i, (statuses i).status = "pending") →
      ∃ k e, pollLoop statuses ft 0 0 "" = .timedOut "pending" k e ∧
        timeoutMs ≤ e ∧ 1 ≤ k) ∧
    (∀ (dk : String) (nk : Option String) (t0 : String) (srcO vO : Option String)
       (oracle : TalkRequest → CreateResp) (statuses : Nat → TalkStatus)
       (ft : Nat → Nat) (jobId : String) (attempts : List TalkRequest),
      dk ≠ "" → jsTrim t0 ≠ "" →
      createTalk (some dk) none (jsTrim t0) (jsOrDefault srcO DEFAULT_SOURCE_URL)
        (jsOrDefault vO DEFAULT_VOICE_ID) oracle = (.ok jobId, attempts) →
      (∀ i, (statuses i).status = "pending") →
      (∃ k, didPOST (some dk) nk none (some ⟨some t0, srcO, vO⟩) oracle statuses ft
        = ⟨.timeoutErr jobId "pending", attempts, k⟩ ∧ 1 ≤ k) ∧
      didStatusCode (.timeoutErr jobId "pending") = 504) := by
  refine ⟨?_, ?_, ?_⟩
  · intro statuses ft n elapsed last hlt hdone herr
    rw [pollLoop]
    simp [hlt, hdone, herr]
  · intro statuses ft hp
    exact pollLoop_pending_go statuses ft hp timeoutMs 0 0 "" (by omega) (by decide)
  · intro dk nk t0 srcO vO oracle statuses ft jobId attempts hdk ht hct hp
    obtain ⟨k, e, heq, _, hk⟩ :=
      pollLoop_pending_go statuses ft hp timeoutMs 0 0 "" (by omega) (by decide)
    have hres : jsOrNull (some dk) nk = some dk := by simp [jsOrNull, jsTruthy, hdk]
    refine ⟨⟨k, ?_, hk⟩, rfl⟩
    unfold didPOST
    rw [hres]
    simp [jsTruthy, hdk, ht, hct, heq]

/-- All-polls-pending status schedule, for the C5 witness. -/
def wPendingStatuses : Nat → TalkStatus := fun _ => ⟨"job123", "pending", none, none⟩

/-- Witness for C5: with every poll answering `"pending"`, the handler
times out at the deadline and answers 504 with the job id and last
status `"pending"`. -/
theorem poll_pending_timeout_witness :
    (∃ k, didPOST (some "k") none none (some ⟨some "hi", none, none⟩)
        wOracleTier1 wPendingStatuses (fun _ => 0)
      = ⟨.timeoutErr "job123" "pending",
         [tier1Req (some "k") none (jsTrim "hi")
           (jsOrDefault none DEFAULT_SOURCE_URL) (jsOrDefault none DEFAULT_VOICE_ID)],
         k⟩ ∧ 1 ≤ k) ∧
    didStatusCode (.timeoutErr "job123" "pending") = 504 := by
  exact poll_pending_timeout.2.2 "k" none "hi" none none wOracleTier1
    wPendingStatuses (fun _ => 0) "job123"
    [tier1Req (some "k") none (jsTrim "hi")
      (jsOrDefault none DEFAULT_SOURCE_URL) (jsOrDefault none DEFAULT_VOICE_ID)]
    (by decide) (by decide) rfl (fun _ => rfl)

end Fluentflow
